import Mathlib

/-!
Verification of the Incident Severity Classification Engine of the
Bully_Block project (`ai_algorithms/feature_extraction.py` and
`ai_algorithms/text_cleaning.py`), shallowly embedded in Lean 4.

Numeric scores are modelled as rationals (`ℚ`); token/entity counts as
naturals.  The external VADER sentiment scorer (`SentimentIntensityAnalyzer`)
is modelled as an arbitrary function `String → SentimentScores`, since the
engine treats it as a black box.
-/

/-- A token as produced by the annotator: `(token.text, token.pos_)`. -/
structure Token where
  text : String
  pos : String
deriving Repr, DecidableEq

/-- A named entity: `(ent.text, ent.label_)`. -/
structure Entity where
  text : String
  label : String
deriving Repr, DecidableEq

/-- One output of `sia.polarity_scores`: keys `pos`, `neg`, `neu`, `compound`. -/
structure SentimentScores where
  pos : ℚ
  neg : ℚ
  neu : ℚ
  compound : ℚ
deriving Repr, DecidableEq

/-- The `sentiment_summary` dictionary built by `validate_features`. -/
structure SentimentSummary where
  positive : ℚ
  negative : ℚ
  neutral : ℚ
deriving Repr, DecidableEq

/-- The `record['validation']` dictionary built by `validate_features`
(the spec's `ValidationRecord` scorecard). -/
structure Validation where
  token_count : Nat
  entity_count : Nat
  negative_adjectives : Nat
  positive_adjectives : Nat
  custom_negative_score : ℚ
  total_negative : ℚ
  sentiment_summary : SentimentSummary
  flagged_entities : List String
deriving Repr, DecidableEq

/-- An input record to `validate_features`: its `tokens` and `entities`. -/
structure FeatureRecord where
  tokens : List Token
  entities : List Entity
deriving Repr, DecidableEq

/-- A record after validation: the input plus its `validation` scorecard. -/
structure ValidatedRecord where
  tokens : List Token
  entities : List Entity
  validation : Validation
deriving Repr, DecidableEq

/-- One incident report dictionary built by `generate_incident_reports`. -/
structure Incident where
  content_id : String
  incident_id : String
  author_id : String
  content_type : String
  severity_level : String
  status : String
deriving Repr, DecidableEq

/-- The two module-level severity tally counters (`low_severity`,
`high_severity`) that `determine_severity` mutates via `global`. -/
structure SevState where
  low_severity : Nat
  high_severity : Nat
deriving Repr, DecidableEq

/-- Python's `str.lower()` for one ASCII character (every phrase in the
source's lexicons is ASCII, so ASCII case mapping is exact here). -/
def lower_char (c : Char) : Char :=
  if 'A' ≤ c ∧ c ≤ 'Z' then Char.ofNat (c.toNat + 32) else c

/-- Python's `str.lower()` on ASCII strings. -/
def str_lower (s : String) : String :=
  String.mk (s.data.map lower_char)

/-- The `severity_lexicon` dict literal of `validate_features`, in source
order.  The Python dict literal contains duplicate keys (e.g. "ugly" first
with weight -0.8, later -0.3); Python keeps the last binding, which
`lex_lookup` reproduces below. -/
def severity_lexicon : List (String × ℚ) := [
  ("stupid", -0.3), ("dumb", -0.3), ("annoying", -0.3), ("idiot", -0.3),
  ("loser", -0.3), ("ugly", -0.8), ("hate", -0.6), ("worthless", -0.8),
  ("lame", -0.3), ("embarrassing", -0.3), ("failure", -0.3), ("talentless", -0.3),
  ("weak", -0.3), ("hideous", -0.3), ("gross", -0.3), ("fat", -0.3),
  ("clueless", -0.3), ("brainless", -0.3), ("pathetic", -0.3), ("useless", -0.3),
  ("lonely", -0.3), ("unpopular", -0.3), ("unwanted", -0.3), ("disappear", -0.3),
  ("disgusting", -0.3), ("fake", -0.3), ("terrible", -0.3), ("cheat", -0.3),
  ("fuck", -1), ("gay", -1), ("ass", -1), ("shit", -1),
  ("whore", -1.5), ("slut", -1.5), ("bitch", -1.5), ("pussy", -0.3),
  ("die", -1.5), ("kill", -1.5), ("trash", -0.3), ("garbage", -0.3),
  ("cringe", -0.3), ("dumbass", -0.3), ("scum", -0.3), ("fail", -0.3),
  ("awful", -0.3), ("toxic", -0.3), ("clown", -0.3), ("stinks", -0.3),
  ("waste", -0.3), ("losers", -0.3), ("bozo", -0.3), ("coward", -0.3),
  ("weirdo", -0.3), ("dipshit", -0.3), ("fatass", -0.3), ("nobody", -0.3),
  ("moron", -0.3), ("idiotic", -0.3), ("spineless", -0.3), ("incompetent", -0.3),
  ("ridiculous", -0.3), ("foolish", -0.3), ("dunce", -0.3), ("imbecile", -0.3),
  ("dimwit", -0.3), ("simpleton", -0.3), ("asshole", -0.3), ("bitchass", -0.3),
  ("dick", -0.3), ("fucking", -0.3), ("motherfucker", -0.3), ("nasty", -0.3),
  ("pig", -0.3), ("uninstall", -0.3), ("creepy", -0.3), ("scumbag", -0.3),
  ("cheater", -0.3), ("unloved", -0.3), ("unwanted", -0.3), ("broke", -0.3),
  ("smelly", -0.3), ("creature", -0.3), ("joke", -0.3), ("lowlife", -0.3),
  ("rat", -0.3), ("kill yourself", -0.3), ("loser", -0.3), ("nobody", -0.3),
  ("ugly", -0.3), ("worthless", -0.3), ("disgusting", -0.3), ("freak", -0.3),
  ("sick", -0.3), ("pathetic", -0.3), ("disgrace", -0.3), ("wretched", -0.3),
  ("sickening", -0.3), ("repulsive", -0.3), ("detestable", -0.3), ("abominable", -0.3),
  ("vile", -0.3), ("no one likes you", -0.3), ("nobody cares", -0.3), ("go die", -0.3),
  ("shut up", -0.3), ("get lost", -0.3), ("go away", -0.3), ("waste of space", -0.3),
  ("walking L", -0.3), ("drop out", -0.3), ("go cry", -0.3), ("stop talking", -0.3),
  ("just quit", -0.3), ("your mom", -0.3), ("poor", -0.3), ("failure at life", -0.3),
  ("so annoying", -0.3), ("hate you", -0.3), ("why are you here", -0.3), ("disease", -0.3),
  ("social suicide", -0.3), ("cringe af", -0.3), ("walking disaster", -0.3), ("born on a highway", -0.3),
  ("should be illegal", -0.3), ("mental case", -0.3), ("go choke", -0.3), ("too dumb to live", -0.3),
  ("choke on", -0.3), ("dumbest person", -0.3), ("disappointment", -0.3), ("busted", -0.3),
  ("rotten", -0.3), ("clapped", -0.3), ("bald", -0.3), ("gremlin", -0.3),
  ("lard", -0.3), ("toothpick", -0.3), ("snitch", -0.3), ("wannabe", -0.3),
  ("poser", -0.3), ("zero purpose", -0.3), ("waste of air", -0.3), ("reject", -0.3),
  ("bot", -0.3), ("get wrecked", -0.3), ("you suck", -0.3), ("shithead", -0.3),
  ("dickhead", -0.3), ("jackass", -0.3), ("bastard", -0.3), ("motherfucker", -0.3),
  ("cocksucker", -0.3), ("cock", -0.3), ("douche", -0.3), ("douchebag", -0.3),
  ("prick", -0.3), ("twat", -0.3), ("ballsack", -0.3), ("nutsack", -0.3),
  ("tit", -0.3), ("tits", -0.3), ("nipple", -0.3), ("hella", -0.3),
  ("bullshit", -0.3), ("horse shit", -0.3), ("piss", -0.3), ("pissed", -0.3),
  ("pissed off", -0.3), ("son of a bitch", -0.3), ("bitching", -0.3), ("screw you", -0.3),
  ("suck my", -0.3), ("sucking", -0.3), ("lick me", -0.3), ("dickwad", -0.3),
  ("dickface", -0.3), ("asswipe", -0.3), ("shitshow", -0.3), ("fuckwit", -0.3),
  ("twatwaffle", -0.3), ("cunt", -1.5), ("pussyass", -0.3), ("assclown", -0.3),
  ("shitbag", -0.3), ("fuckface", -0.3), ("retard", -0.8)]

def negative_adjective_words : List String := [
  "stupid", "dumb", "annoying", "idiot", "loser", "ugly",
  "hate", "worthless", "lame", "embarrassing", "failure", "talentless",
  "weak", "hideous", "gross", "fat", "clueless", "brainless",
  "pathetic", "useless", "lonely", "unpopular", "unwanted", "disappear",
  "disgusting", "fake", "terrible", "cheat", "fuck", "gay",
  "ass", "shit", "whore", "slut", "bitch", "pussy",
  "die", "kill", "trash", "garbage", "cringe", "dumbass",
  "scum", "fail", "awful", "toxic", "clown", "stinks",
  "waste", "losers", "bozo", "coward", "weirdo", "dipshit",
  "fatass", "nobody", "moron", "idiotic", "spineless", "incompetent",
  "ridiculous", "foolish", "dunce", "imbecile", "dimwit", "simpleton",
  "asshole", "bitchass", "dick", "fucking", "motherfucker", "nasty",
  "pig", "uninstall", "creepy", "scumbag", "cheater", "unloved",
  "unwanted", "broke", "smelly", "creature", "joke", "lowlife",
  "rat", "kill yourself", "loser", "nobody", "ugly", "worthless",
  "disgusting", "freak", "sick", "pathetic", "disgrace", "wretched",
  "sickening", "repulsive", "detestable", "abominable", "vile", "no one likes you",
  "nobody cares", "go die", "shut up", "get lost", "go away", "waste of space",
  "walking L", "drop out", "go cry", "stop talking", "just quit", "your mom",
  "poor", "failure at life", "so annoying", "hate you", "why are you here", "disease",
  "social suicide", "cringe af", "walking disaster", "born on a highway", "should be illegal", "mental case",
  "go choke", "too dumb to live", "choke on", "dumbest person", "disappointment", "busted",
  "rotten", "clapped", "bald", "gremlin", "lard", "toothpick",
  "snitch", "wannabe", "poser", "zero purpose", "waste of air", "reject",
  "bot", "get wrecked", "you suck", "shithead", "dickhead", "jackass",
  "bastard", "motherfucker", "cocksucker", "cock", "douche", "douchebag",
  "prick", "twat", "ballsack", "nutsack", "tit", "tits",
  "nipple", "hella", "bullshit", "horse shit", "piss", "pissed",
  "pissed off", "son of a bitch", "bitching", "screw you", "suck my", "sucking",
  "lick me", "dickwad", "dickface", "asswipe", "shitshow", "fuckwit",
  "twatwaffle", "cunt", "pussyass", "assclown", "shitbag", "fuckface",
  "retard"]

def positive_adjective_words : List String := [
  "amazing", "awesome", "brilliant", "excellent", "fantastic", "great",
  "incredible", "outstanding", "perfect", "phenomenal", "remarkable", "spectacular",
  "superb", "terrific", "wonderful", "beautiful", "brave", "bright",
  "calm", "cheerful", "clever", "confident", "creative", "determined",
  "energetic", "friendly", "generous", "gentle", "happy", "helpful",
  "honest", "intelligent", "kind", "loving", "loyal", "patient",
  "peaceful", "polite", "powerful", "proud", "reliable", "respectful",
  "responsible", "sincere", "smart", "strong", "successful", "talented",
  "thoughtful", "trustworthy", "wise", "witty", "worthy", "admirable",
  "adorable", "agreeable", "charming", "courageous", "dedicated", "diligent",
  "elegant", "enthusiastic", "excited", "faithful", "fearless", "graceful",
  "grateful", "heroic", "hopeful", "humble", "inspiring", "joyful",
  "magnificent", "marvelous", "noble", "optimistic", "passionate", "radiant",
  "splendid", "stellar", "supportive", "tender", "thoughtful", "triumphant",
  "valiant", "valuable", "vibrant", "victorious", "virtuous", "warm",
  "welcome", "worthy", "zealous"]

/-- Python dict semantics for `severity_lexicon[token_lower]`: the last
binding of a duplicated key wins. -/
def lex_lookup (s : String) : Option ℚ :=
  (severity_lexicon.reverse.find? (fun p => p.1 == s)).map Prod.snd

/-- The hard-coded `negative_words` set of `analyze_entity_context`. -/
def negative_words : List String := ["stupid", "dumb", "annoying", "loser"]

/-- The entity-context flagger `analyze_entity_context(entities, tokens)`:
the Python list comprehension
`[entity[0] for entity in entities if entity[1] == "PERSON" and
any(word[0].lower() in negative_words for word in tokens)]`. -/
def analyze_entity_context (entities : List Entity) (tokens : List Token) :
    List String :=
  (entities.filter (fun entity =>
      entity.label == "PERSON" &&
      tokens.any (fun word => negative_words.contains (str_lower word.text)))).map
    (fun entity => entity.text)

/-- The helper `analyze_sentiment(tokens)`: per-token scores, summed and then
normalized by the compound total; returns `{positive: 0, negative: 0,
neutral: 1}` when `tokens` is empty.  (Defined in the source but not called
on the validator path.) -/
def analyze_sentiment (sia : String → SentimentScores)
    (tokens : List Token) : SentimentSummary :=
  let scores := tokens.map (fun token => sia token.text)
  if scores.isEmpty then
    { positive := 0, negative := 0, neutral := 1 }
  else
    let total_pos := (scores.map (fun score => score.pos)).sum
    let total_neg := (scores.map (fun score => score.neg)).sum
    let total_neu := (scores.map (fun score => score.neu)).sum
    let compound : ℚ := (scores.map (fun score => score.compound)).sum
    if compound > 0.05 then
      { positive := min 1 (total_pos * 2),
        negative := max 0 (total_neg * 0.3),
        neutral := max 0 (total_neu * 0.2) }
    else if compound < -0.05 then
      { positive := max 0 (total_pos * 0.3),
        negative := min 1 (total_neg * 2),
        neutral := max 0 (total_neu * 0.2) }
    else
      { positive := total_pos * 0.8,
        negative := total_neg * 0.8,
        neutral := total_neu * 0.5 }

/-- The loop body of `validate_features` for one record: builds the
`record['validation']` scorecard.  `sia` is the external VADER scorer. -/
def validate_record (sia : String → SentimentScores) (r : FeatureRecord) :
    Validation :=
  let tokens := r.tokens
  let entities := r.entities
  let token_count := tokens.length
  let entity_count := entities.length
  let custom_negative_score : ℚ := tokens.foldl
    (fun acc token =>
      match lex_lookup (str_lower token.text) with
      | some w => acc + |w|
      | none => acc) 0
  let negative_adjectives := (tokens.filter (fun token =>
      token.pos == "ADJ" && negative_adjective_words.contains (str_lower token.text))).length
  let positive_adjectives := (tokens.filter (fun token =>
      token.pos == "ADJ" && positive_adjective_words.contains (str_lower token.text))).length
  let text := String.intercalate " " (tokens.map (fun token => token.text))
  let overall_sentiment := sia text
  let token_sentiment_scores := tokens.map (fun token => sia token.text)
  let token_positive := (token_sentiment_scores.map (fun score => score.pos)).sum
  let token_negative := (token_sentiment_scores.map (fun score => score.neg)).sum
  let token_neutral := (token_sentiment_scores.map (fun score => score.neu)).sum
  let total_negative := token_negative + custom_negative_score
  let sentiment_summary : SentimentSummary :=
    { positive := max overall_sentiment.pos token_positive,
      negative := max overall_sentiment.neg token_negative,
      neutral := min overall_sentiment.neu token_neutral }
  let flagged_entities := analyze_entity_context entities tokens
  { token_count := token_count,
    entity_count := entity_count,
    negative_adjectives := negative_adjectives,
    positive_adjectives := positive_adjectives,
    custom_negative_score := custom_negative_score,
    total_negative := total_negative,
    sentiment_summary := sentiment_summary,
    flagged_entities := flagged_entities }

/-- `validate_features(feature_data)`: attaches a `validation` scorecard to
every record (the source mutates each dict in place and returns the list). -/
def validate_features (sia : String → SentimentScores)
    (feature_data : List FeatureRecord) : List ValidatedRecord :=
  feature_data.map (fun r =>
    { tokens := r.tokens, entities := r.entities,
      validation := validate_record sia r })

/-- `text_cleaning.get_content_id(i)`: a plain list index
`content_ids[i]`; an out-of-range index raises `IndexError`, modelled
as `none`. -/
def get_content_id (content_ids : List String) (i : Nat) : Option String :=
  content_ids.get? i

/-- `text_cleaning.get_author_id(i)`: a plain list index `author_ids[i]`;
an out-of-range index raises `IndexError`, modelled as `none` (despite the
source docstring promising "Unspecified" when not found). -/
def get_author_id (author_ids : List String) (i : Nat) : Option String :=
  author_ids.get? i

/-- `text_cleaning.get_content_type(i)`: a plain list index
`content_types[i]`; an out-of-range index raises `IndexError`, modelled
as `none`. -/
def get_content_type (content_types : List String) (i : Nat) : Option String :=
  content_types.get? i

/-- Modelled from the spec: `lexiconScore` as the spec words it — the sum
over tokens of `|weight|` for each lowercased token found in the negative
lexicon.  Compared against the running-total loop of `validate_record`. -/
def lexiconScoreSpec (tokens : List Token) : ℚ :=
  ((tokens.filterMap (fun token => lex_lookup (str_lower token.text))).map
    (fun w => |w|)).sum

/-- The severity decision procedure `determine_severity(validation)`,
value part: the exact branch structure of the source, in source order,
first match wins.  (`negative_adj_count >= 0` is transcribed verbatim even
though it is vacuous on naturals, as it is for non-negative ints.) -/
def determine_severity (validation : Validation) : String :=
  let total_negative := validation.total_negative
  let positive_score := validation.sentiment_summary.positive
  let neutral_score := validation.sentiment_summary.neutral
  let negative_adj_count := validation.negative_adjectives
  let positive_adj_count := validation.positive_adjectives
  let flagged_entities := validation.flagged_entities.length
  let sentiment_balance := positive_score - total_negative
  if (total_negative > 1.5 ∧ negative_adj_count ≥ 1) ∨
     (total_negative ≥ 2.5 ∧ negative_adj_count = 0) ∨
     flagged_entities ≥ 2 ∨
     sentiment_balance ≤ -2 ∨
     (negative_adj_count ≥ 1 ∧ total_negative ≥ 1.5) then
    "high"
  else if (0.3 ≤ total_negative ∧ total_negative < 1.5 ∧ negative_adj_count ≥ 1) ∨
          (total_negative ≥ 1.5 ∧ negative_adj_count = 0) ∨
          flagged_entities = 1 ∨
          (-0.5 ≤ sentiment_balance ∧ sentiment_balance < 0) ∨
          (neutral_score > 0.7 ∧ negative_adj_count ≥ 0) then
    "low"
  else if sentiment_balance > 0 ∨
          (negative_adj_count = 0 ∧ flagged_entities = 0) ∨
          positive_score ≥ 0.8 ∨
          positive_adj_count ≥ 1 ∨
          (neutral_score > 0.7 ∧ positive_adj_count ≥ 1) then
    "zero"
  else
    "zero"

/-- The severity decision procedure including its side effect on the
module-level counters: the `high` branch executes `high_severity += 1`
and the `low` branch executes `low_severity += 1`. -/
def determine_severity_with_globals (validation : Validation) (s : SevState) :
    String × SevState :=
  let total_negative := validation.total_negative
  let positive_score := validation.sentiment_summary.positive
  let neutral_score := validation.sentiment_summary.neutral
  let negative_adj_count := validation.negative_adjectives
  let positive_adj_count := validation.positive_adjectives
  let flagged_entities := validation.flagged_entities.length
  let sentiment_balance := positive_score - total_negative
  if (total_negative > 1.5 ∧ negative_adj_count ≥ 1) ∨
     (total_negative ≥ 2.5 ∧ negative_adj_count = 0) ∨
     flagged_entities ≥ 2 ∨
     sentiment_balance ≤ -2 ∨
     (negative_adj_count ≥ 1 ∧ total_negative ≥ 1.5) then
    ("high", { s with high_severity := s.high_severity + 1 })
  else if (0.3 ≤ total_negative ∧ total_negative < 1.5 ∧ negative_adj_count ≥ 1) ∨
          (total_negative ≥ 1.5 ∧ negative_adj_count = 0) ∨
          flagged_entities = 1 ∨
          (-0.5 ≤ sentiment_balance ∧ sentiment_balance < 0) ∨
          (neutral_score > 0.7 ∧ negative_adj_count ≥ 0) then
    ("low", { s with low_severity := s.low_severity + 1 })
  else if sentiment_balance > 0 ∨
          (negative_adj_count = 0 ∧ flagged_entities = 0) ∨
          positive_score ≥ 0.8 ∨
          positive_adj_count ≥ 1 ∨
          (neutral_score > 0.7 ∧ positive_adj_count ≥ 1) then
    ("zero", s)
  else
    ("zero", s)

/-- Modelled from the spec: the ordered rule table of §4.4 (`decide`),
evaluated top-down with first match winning, written from the spec's words
(in the LOW tier the neutral rule applies "regardless of adjective count").
Used only to compare against `determine_severity`, the source transcription. -/
def decideSpec (v : Validation) : String :=
  let sentimentBalance := v.sentiment_summary.positive - v.total_negative
  let flaggedCount := v.flagged_entities.length
  if (v.total_negative > 1.5 ∧ v.negative_adjectives ≥ 1) ∨
     (v.total_negative ≥ 2.5 ∧ v.negative_adjectives = 0) ∨
     flaggedCount ≥ 2 ∨
     sentimentBalance ≤ -2 ∨
     (v.negative_adjectives ≥ 1 ∧ v.total_negative ≥ 1.5) then
    "high"
  else if (0.3 ≤ v.total_negative ∧ v.total_negative < 1.5 ∧ v.negative_adjectives ≥ 1) ∨
          (v.total_negative ≥ 1.5 ∧ v.negative_adjectives = 0) ∨
          flaggedCount = 1 ∨
          (-0.5 ≤ sentimentBalance ∧ sentimentBalance < 0) ∨
          v.sentiment_summary.neutral > 0.7 then
    "low"
  else if sentimentBalance > 0 ∨
          (v.negative_adjectives = 0 ∧ flaggedCount = 0) ∨
          v.sentiment_summary.positive ≥ 0.8 ∨
          v.positive_adjectives ≥ 1 ∨
          (v.sentiment_summary.neutral > 0.7 ∧ v.positive_adjectives ≥ 1) then
    "zero"
  else
    "zero"

/-- The loop of `generate_incident_reports`, carried out from index `i`:
one iteration computes the severity, performs the three side-table lookups
(an uncaught `IndexError` — `none` — aborts the whole remaining batch, as
the source has no try/except), and appends the incident dict. -/
def generate_incident_reports_from (content_ids author_ids content_types : List String) :
    Nat → List ValidatedRecord → Option (List Incident)
  | _, [] => some []
  | i, record :: rest => do
    let severity := determine_severity record.validation
    let content_id ← get_content_id content_ids i
    let author_id ← get_author_id author_ids i
    let content_type ← get_content_type content_types i
    let incident : Incident :=
      { content_id := content_id,
        incident_id := "i" ++ toString (i + 10000),
        author_id := author_id,
        content_type := content_type,
        severity_level := severity,
        status := "pending review" }
    let rest_reports ← generate_incident_reports_from content_ids author_ids content_types (i + 1) rest
    some (incident :: rest_reports)

/-- `generate_incident_reports(feature_data)`: enumerate from index 0. -/
def generate_incident_reports (content_ids author_ids content_types : List String)
    (feature_data : List ValidatedRecord) : Option (List Incident) :=
  generate_incident_reports_from content_ids author_ids content_types 0 feature_data

/-- A scorecard with every field zero, used as a concrete test record. -/
def sample_validation : Validation :=
  { token_count := 0, entity_count := 0, negative_adjectives := 0,
    positive_adjectives := 0, custom_negative_score := 0, total_negative := 0,
    sentiment_summary := { positive := 0, negative := 0, neutral := 0 },
    flagged_entities := [] }

/-- A validated record with no tokens, no entities and the zero scorecard. -/
def sample_record : ValidatedRecord :=
  { tokens := [], entities := [], validation := sample_validation }

/-- A sentiment scorer returning all-zero scores on every input, matching
what VADER returns on the empty string. -/
def zero_scorer : String → SentimentScores :=
  fun _ => { pos := 0, neg := 0, neu := 0, compound := 0 }

/-- Claim C1: for every ValidationRecord `v`, the source's severity decision
procedure agrees with the spec's ordered rule table (HIGH checked before LOW
before ZERO, first match wins, default ZERO). -/
theorem determine_severity_eq_spec_table (v : Validation) :
    determine_severity v = decideSpec v := by
  unfold determine_severity decideSpec
  simp only [ge_iff_le, Nat.zero_le, and_true]

/-- Claim C5: totality — for every ValidationRecord `v`, `determine_severity`
returns one of the three tier strings "zero", "low", "high" (never an error);
the default fallback when no rule matches is "zero". -/
theorem determine_severity_total (v : Validation) :
    determine_severity v = "zero" ∨ determine_severity v = "low" ∨
      determine_severity v = "high" := by
  unfold determine_severity
  dsimp only
  split_ifs <;> simp

/-- Claim C6: determinism — the tier returned by the severity decision
procedure depends only on the fields of `v`, not on the process-wide mutable
tally counters it increments as a side effect; so any two calls on equal
inputs return the same tier, and both agree with the pure value. -/
theorem determine_severity_deterministic (v : Validation) (s₁ s₂ : SevState) :
    (determine_severity_with_globals v s₁).1 =
      (determine_severity_with_globals v s₂).1 ∧
    (determine_severity_with_globals v s₁).1 = determine_severity v := by
  unfold determine_severity_with_globals determine_severity
  dsimp only
  split_ifs <;> simp

/-- Counterexample to claim C4: the flagger's output is a Python list, not a
set — with two PERSON entities both named "Alex" and a token "stupid", the
output is ["Alex", "Alex"], containing the flagged text twice, so the
flaggedCount used by the decision procedure is 2, not the 1 distinct text. -/
theorem flagged_entities_duplicates_counterexample :
    analyze_entity_context [⟨"Alex", "PERSON"⟩, ⟨"Alex", "PERSON"⟩]
        [⟨"stupid", "ADJ"⟩] = ["Alex", "Alex"] ∧
    ¬ (analyze_entity_context [⟨"Alex", "PERSON"⟩, ⟨"Alex", "PERSON"⟩]
        [⟨"stupid", "ADJ"⟩]).Nodup ∧
    (analyze_entity_context [⟨"Alex", "PERSON"⟩, ⟨"Alex", "PERSON"⟩]
        [⟨"stupid", "ADJ"⟩]).length = 2 ∧
    (analyze_entity_context [⟨"Alex", "PERSON"⟩, ⟨"Alex", "PERSON"⟩]
        [⟨"stupid", "ADJ"⟩]).dedup.length = 1 := by
  decide

/-- Claim C4 (amended): the Entity-Context Flagger returns the list (in
entity order, with multiplicity) of the texts of the PERSON-labelled
entities when at least one token of the record lowercases to a member of
{"stupid", "dumb", "annoying", "loser"}, and the empty list when no such
token exists; duplicate PERSON entities yield duplicate texts, so the
flaggedCount used by the decision procedure counts entity occurrences. -/
theorem analyze_entity_context_characterization (entities : List Entity)
    (tokens : List Token) :
    analyze_entity_context entities tokens =
      if tokens.any (fun word => negative_words.contains (str_lower word.text)) then
        (entities.filter (fun entity => entity.label == "PERSON")).map
          (fun entity => entity.text)
      else [] := by
  unfold analyze_entity_context
  cases h : tokens.any (fun word => negative_words.contains (str_lower word.text)) with
  | false => simp
  | true => simp

/-- Claim C10: the severity decision procedure never reads the negative
component of the sentiment summary — two scorecards agreeing on every field
except `sentiment_summary.negative` receive the same tier. -/
theorem severity_ignores_negative_summary (v₁ v₂ : Validation)
    (_h1 : v₁.token_count = v₂.token_count)
    (_h2 : v₁.entity_count = v₂.entity_count)
    (h3 : v₁.negative_adjectives = v₂.negative_adjectives)
    (h4 : v₁.positive_adjectives = v₂.positive_adjectives)
    (_h5 : v₁.custom_negative_score = v₂.custom_negative_score)
    (h6 : v₁.total_negative = v₂.total_negative)
    (h7 : v₁.sentiment_summary.positive = v₂.sentiment_summary.positive)
    (h8 : v₁.sentiment_summary.neutral = v₂.sentiment_summary.neutral)
    (h9 : v₁.flagged_entities = v₂.flagged_entities) :
    determine_severity v₁ = determine_severity v₂ := by
  unfold determine_severity
  rw [h3, h4, h6, h7, h8, h9]

/-- Witness for claim C10: two concrete scorecards differing only in
aggregated negative sentiment (5 versus 100) receive the same tier. -/
theorem severity_ignores_negative_summary_witness :
    determine_severity
        ⟨0, 0, 0, 0, 0, 0, ⟨0, 5, 0⟩, []⟩ =
      determine_severity
        ⟨0, 0, 0, 0, 0, 0, ⟨0, 100, 0⟩, []⟩ :=
  severity_ignores_negative_summary _ _ rfl rfl rfl rfl rfl rfl rfl rfl rfl

/-- Claim C7: with one negative adjective, at most one flagged entity and a
sentiment balance above -2, a totalNegative of at least 1.5 (including the
boundary 1.5 itself) yields HIGH, while a totalNegative in [0.3, 1.5) yields
LOW — crossing 1.5 flips the outcome to HIGH. -/
theorem threshold_monotonicity (v : Validation)
    (hadj : v.negative_adjectives = 1)
    (hflag : v.flagged_entities.length ≤ 1)
    (hbal : v.sentiment_summary.positive - v.total_negative > -2) :
    (v.total_negative ≥ 1.5 → determine_severity v = "high") ∧
    (0.3 ≤ v.total_negative ∧ v.total_negative < 1.5 →
      determine_severity v = "low") := by
  unfold determine_severity
  dsimp only
  constructor
  · intro h
    rw [if_pos]
    exact Or.inr (Or.inr (Or.inr (Or.inr ⟨by omega, h⟩)))
  · rintro ⟨h1, h2⟩
    have hnot : ¬ ((v.total_negative > 1.5 ∧ v.negative_adjectives ≥ 1) ∨
        (v.total_negative ≥ 2.5 ∧ v.negative_adjectives = 0) ∨
        v.flagged_entities.length ≥ 2 ∨
        v.sentiment_summary.positive - v.total_negative ≤ -2 ∨
        (v.negative_adjectives ≥ 1 ∧ v.total_negative ≥ 1.5)) := by
      rintro (⟨ha, _⟩ | ⟨ha, hb⟩ | hf | hs | ⟨_, hb⟩)
      · linarith
      · omega
      · omega
      · linarith
      · linarith
    rw [if_neg hnot, if_pos]
    exact Or.inl ⟨h1, h2, by omega⟩

/-- Witness for claim C7: a concrete scorecard with one negative adjective
and totalNegative exactly 1.5 is HIGH, and the same scorecard with
totalNegative 1 is LOW. -/
theorem threshold_monotonicity_witness :
    determine_severity ⟨0, 0, 1, 0, 0, 1.5, ⟨0, 0, 0⟩, []⟩ = "high" ∧
    determine_severity ⟨0, 0, 1, 0, 0, 1, ⟨0, 0, 0⟩, []⟩ = "low" :=
  ⟨(threshold_monotonicity _ rfl (by decide) (by norm_num)).1 (by norm_num),
   (threshold_monotonicity _ rfl (by decide) (by norm_num)).2
     ⟨by norm_num, by norm_num⟩⟩

/-- Helper: the scorecard `validate_features` builds for a record with no
tokens and no entities, for an arbitrary scorer `sia`: every count is zero
and the summary combines the scorer's output on the empty string with the
zero token sums. -/
theorem validate_record_nil (sia : String → SentimentScores) :
    validate_record sia ⟨[], []⟩ =
      ⟨0, 0, 0, 0, 0, 0,
        ⟨max (sia "").pos 0, max (sia "").neg 0, min (sia "").neu 0⟩, []⟩ := by
  have h0 : String.intercalate " " ([] : List String) = "" := rfl
  unfold validate_record analyze_entity_context
  norm_num [h0]

/-- Counterexample to claim C2: on the empty record the Feature Validator
sets `sentiment_summary.neutral = min(scorerNeutral(""), 0) = 0`, not 1 —
with a scorer returning all zeros on the empty string (as VADER does), the
summary is {0, 0, 0}, refuting the claimed `{positive: 0, negative: 0,
neutral: 1}` (the `{0,0,1}` default lives in `analyze_sentiment`, which the
validator never calls). -/
theorem empty_record_neutral_counterexample :
    (validate_record zero_scorer ⟨[], []⟩).sentiment_summary.neutral = 0 ∧
    (validate_record zero_scorer ⟨[], []⟩).sentiment_summary ≠
      ⟨0, 0, 1⟩ := by
  decide

/-- Claim C2 (amended): for every scorer, an input record with no tokens
and no entities yields a scorecard with all counts zero, totalNegative 0,
no flagged entities, sentimentSummary = {scorerPos(""), scorerNeg(""),
min(scorerNeu(""), 0)} — so neutral 0 rather than the claimed 1 — and the
Severity Decision Procedure assigns it tier ZERO with no error; the
`{positive: 0, negative: 0, neutral: 1}` default instead belongs to the
helper `analyze_sentiment`, which is not on the validator path. -/
theorem empty_record_validation (sia : String → SentimentScores) :
    (validate_record sia ⟨[], []⟩).token_count = 0 ∧
    (validate_record sia ⟨[], []⟩).entity_count = 0 ∧
    (validate_record sia ⟨[], []⟩).negative_adjectives = 0 ∧
    (validate_record sia ⟨[], []⟩).positive_adjectives = 0 ∧
    (validate_record sia ⟨[], []⟩).custom_negative_score = 0 ∧
    (validate_record sia ⟨[], []⟩).total_negative = 0 ∧
    (validate_record sia ⟨[], []⟩).flagged_entities = [] ∧
    (validate_record sia ⟨[], []⟩).sentiment_summary =
      ⟨max (sia "").pos 0, max (sia "").neg 0, min (sia "").neu 0⟩ ∧
    determine_severity (validate_record sia ⟨[], []⟩) = "zero" ∧
    analyze_sentiment sia [] = ⟨0, 0, 1⟩ := by
  rw [validate_record_nil]
  refine ⟨rfl, rfl, rfl, rfl, rfl, rfl, rfl, rfl, ?_, rfl⟩
  have hp : (0:ℚ) ≤ max (sia "").pos 0 := le_max_right _ _
  have hn : min (sia "").neu 0 ≤ 0 := min_le_right _ _
  unfold determine_severity
  dsimp only
  split_ifs with hhigh hlow
  · exfalso
    rcases hhigh with ⟨h, _⟩ | ⟨h, _⟩ | h | h | ⟨h, _⟩
    · norm_num at h
    · norm_num at h
    · norm_num at h
    · linarith
    · norm_num at h
  · exfalso
    rcases hlow with ⟨h, _⟩ | ⟨h, _⟩ | h | ⟨_, h⟩ | ⟨h, _⟩
    · norm_num at h
    · norm_num at h
    · norm_num at h
    · linarith
    · linarith
  · rfl
  · rfl

/-- Claim C3: the code contradicts its own docstring and the spec — when a
side-table lookup is missing for a record index (here `content_types` has
an entry for record 0 but none for record 1, as happens whenever a record
enters the pipeline through its `text` field), `get_content_type` raises
an uncaught `IndexError` (`none`) instead of substituting "Unspecified",
and the whole batch aborts with zero reports, losing record 0 whose lookups
all succeed; the same batch with both lookups present produces both
reports. -/
theorem missing_lookup_aborts_batch :
    generate_incident_reports ["c0", "c1"] ["a0", "a1"] ["post"]
        [sample_record, sample_record] = none ∧
    generate_incident_reports ["c0", "c1"] ["a0", "a1"] ["post", "comment"]
        [sample_record, sample_record] =
      some [⟨"c0", "i10000", "a0", "post", "zero", "pending review"⟩,
            ⟨"c1", "i10001", "a1", "comment", "zero", "pending review"⟩] := by
  have hsev : determine_severity sample_validation = "zero" := by
    unfold determine_severity sample_validation
    norm_num
  refine ⟨?_, ?_⟩
  · simp [generate_incident_reports, generate_incident_reports_from,
      get_content_id, get_author_id, get_content_type]
  · simp [generate_incident_reports, generate_incident_reports_from,
      get_content_id, get_author_id, get_content_type, sample_record, hsev]
    constructor <;> decide

/-- Helper: the running-total loop over tokens that accumulates
`|severity_lexicon[token_lower]|` equals its initial value plus the spec's
lexiconScore sum. -/
theorem custom_score_foldl_eq (tokens : List Token) (init : ℚ) :
    tokens.foldl (fun acc token =>
      match lex_lookup (str_lower token.text) with
      | some w => acc + |w|
      | none => acc) init = init + lexiconScoreSpec tokens := by
  induction tokens generalizing init with
  | nil => simp [lexiconScoreSpec]
  | cons t ts ih =>
    rw [List.foldl_cons]
    cases h : lex_lookup (str_lower t.text) with
    | none =>
      rw [ih]
      simp [lexiconScoreSpec, List.filterMap_cons, h]
    | some w =>
      rw [ih]
      simp [lexiconScoreSpec, List.filterMap_cons, h]
      ring

/-- Claim C9: for every scorer and record, the validator's scorecard takes
the componentwise max of record-level and token-summed positive/negative
sentiment, the min for neutral, and sets totalNegative to the token-summed
negative sentiment plus the lexicon score (the sum over tokens of |weight|
for each lowercased token found in the negative lexicon). -/
theorem validate_record_aggregation (sia : String → SentimentScores)
    (r : FeatureRecord) :
    (validate_record sia r).sentiment_summary.positive =
      max (sia (String.intercalate " " (r.tokens.map (fun token => token.text)))).pos
        ((r.tokens.map (fun token => (sia token.text).pos)).sum) ∧
    (validate_record sia r).sentiment_summary.negative =
      max (sia (String.intercalate " " (r.tokens.map (fun token => token.text)))).neg
        ((r.tokens.map (fun token => (sia token.text).neg)).sum) ∧
    (validate_record sia r).sentiment_summary.neutral =
      min (sia (String.intercalate " " (r.tokens.map (fun token => token.text)))).neu
        ((r.tokens.map (fun token => (sia token.text).neu)).sum) ∧
    (validate_record sia r).total_negative =
      ((r.tokens.map (fun token => (sia token.text).neg)).sum) +
        lexiconScoreSpec r.tokens := by
  unfold validate_record
  dsimp only
  refine ⟨?_, ?_, ?_, ?_⟩
  · rw [List.map_map]
    rfl
  · rw [List.map_map]
    rfl
  · rw [List.map_map]
    rfl
  · rw [custom_score_foldl_eq, List.map_map, zero_add]
    rfl

/-- Helper: the report-generation loop started at index `k`, when every
side-table lookup for the batch is present, returns one report per record
whose incident id is "i" followed by `k + i + 10000` and whose status is
"pending review". -/
theorem generate_from_spec (content_ids author_ids content_types : List String)
    (feature_data : List ValidatedRecord) :
    ∀ k, k + feature_data.length ≤ content_ids.length →
      k + feature_data.length ≤ author_ids.length →
      k + feature_data.length ≤ content_types.length →
      ∃ reports : List Incident,
        generate_incident_reports_from content_ids author_ids content_types
            k feature_data = some reports ∧
        reports.length = feature_data.length ∧
        ∀ i (hi : i < reports.length),
          (reports.get ⟨i, hi⟩).incident_id = "i" ++ toString (k + i + 10000) ∧
          (reports.get ⟨i, hi⟩).status = "pending review" := by
  induction feature_data with
  | nil =>
    intro k _ _ _
    refine ⟨[], rfl, rfl, ?_⟩
    intro i hi
    exact absurd hi (by simp)
  | cons r rest ih =>
    intro k hc ha ht
    have hck : k < content_ids.length := by
      simp only [List.length_cons] at hc
      omega
    have hak : k < author_ids.length := by
      simp only [List.length_cons] at ha
      omega
    have htk : k < content_types.length := by
      simp only [List.length_cons] at ht
      omega
    obtain ⟨reports, hgen, hlen, hprops⟩ := ih (k + 1)
      (by simp only [List.length_cons] at hc; omega)
      (by simp only [List.length_cons] at ha; omega)
      (by simp only [List.length_cons] at ht; omega)
    refine ⟨⟨content_ids.get ⟨k, hck⟩, "i" ++ toString (k + 10000),
        author_ids.get ⟨k, hak⟩, content_types.get ⟨k, htk⟩,
        determine_severity r.validation, "pending review"⟩ :: reports, ?_, ?_, ?_⟩
    · simp [generate_incident_reports_from, get_content_id, get_author_id,
        get_content_type, List.getElem?_eq_getElem hck,
        List.getElem?_eq_getElem hak, List.getElem?_eq_getElem htk, hgen]
    · simp [hlen]
    · intro i hi
      cases i with
      | zero => exact ⟨rfl, rfl⟩
      | succ j =>
        have hj : j < reports.length := by
          simp only [List.length_cons] at hi
          omega
        refine ⟨?_, (hprops j hj).2⟩
        show (reports.get ⟨j, hj⟩).incident_id = "i" ++ toString (k + (j + 1) + 10000)
        rw [(hprops j hj).1]
        congr 2
        omega

/-- Claim C8: a batch of N records whose side-table lookups are all present
yields exactly N incident reports in input order, the report for index i
carrying incidentId "i" followed by 10000 + i and status "pending review";
the numeric suffixes 10000 + i are therefore pairwise distinct and strictly
increasing, starting at 10000. -/
theorem incident_reports_structure (content_ids author_ids content_types : List String)
    (feature_data : List ValidatedRecord)
    (hc : feature_data.length ≤ content_ids.length)
    (ha : feature_data.length ≤ author_ids.length)
    (ht : feature_data.length ≤ content_types.length) :
    ∃ reports : List Incident,
      generate_incident_reports content_ids author_ids content_types
          feature_data = some reports ∧
      reports.length = feature_data.length ∧
      (∀ i (hi : i < reports.length),
        (reports.get ⟨i, hi⟩).incident_id = "i" ++ toString (10000 + i) ∧
        (reports.get ⟨i, hi⟩).status = "pending review") ∧
      (∀ i j, i < j → j < feature_data.length → 10000 + i < 10000 + j) := by
  obtain ⟨reports, hgen, hlen, hprops⟩ := generate_from_spec content_ids
    author_ids content_types feature_data 0 (by omega) (by omega) (by omega)
  refine ⟨reports, hgen, hlen, ?_, ?_⟩
  · intro i hi
    refine ⟨?_, (hprops i hi).2⟩
    rw [(hprops i hi).1]
    congr 2
    omega
  · intro i j hij hj
    omega

/-- Witness for claim C8: a concrete batch of two records with all lookups
present yields two reports with ids "i10000", "i10001" and status
"pending review". -/
theorem incident_reports_structure_witness :
    ∃ reports : List Incident,
      generate_incident_reports ["c0", "c1"] ["a0", "a1"] ["post", "comment"]
          [sample_record, sample_record] = some reports ∧
      reports.length = [sample_record, sample_record].length ∧
      (∀ i (hi : i < reports.length),
        (reports.get ⟨i, hi⟩).incident_id = "i" ++ toString (10000 + i) ∧
        (reports.get ⟨i, hi⟩).status = "pending review") ∧
      (∀ i j, i < j → j < [sample_record, sample_record].length →
        10000 + i < 10000 + j) :=
  incident_reports_structure _ _ _ _ (by decide) (by decide) (by decide)
